import Mathlib

/-!
Verification of the SpotifyPlaylistAutomation frontend sync layer.

The development shallowly embeds the code of
src/frontend/src/services/api.js and the event handlers of
src/frontend/src/components/SyncView.vue and
src/frontend/src/components/ValidationView.vue.

The api.js client is embedded as pure request builders (each function
returns the HTTP request it issues).  Each SyncView handler is embedded
as a function from its run-time inputs (the component's forceRefresh
flag, the server's response to the first call, and the user's choice in
the confirmation dialog) to the sequence of observable events the
handler produces, in program order: API requests issued and dialog
interactions.  calculatePercentage from ValidationView.vue is embedded
over a model of JavaScript numbers: finite values as rationals, plus
NaN and the two infinities.  NaN/Infinity propagation, the zero guard,
and overflow of finite division and multiplication to the infinities
(IEEE saturation at the 2^1024 - 2^970 round-to-nearest threshold) are
modelled exactly on exact operands; rounding of non-overflowing finite
results to the nearest double is not modelled.
-/

/-- A request body, as built by api.js.  The sync endpoints post exactly
the object with fields force_refresh and confirm; the other endpoints used
here post no body. -/
inductive Body where
  | empty : Body
  | syncFlags (force_refresh : Bool) (confirm : Bool) : Body
deriving DecidableEq, Repr

/-- An HTTP request issued through the axios client of api.js:
the endpoint path and the posted body. -/
structure Request where
  endpoint : String
  body : Body
deriving DecidableEq, Repr

/-- The confirm field of a request's body, when the body has one. -/
def Request.bodyConfirm (r : Request) : Option Bool :=
  match r.body with
  | .syncFlags _ c => some c
  | .empty => none

/-- The force_refresh field of a request's body, when the body has one. -/
def Request.bodyForceRefresh (r : Request) : Option Bool :=
  match r.body with
  | .syncFlags f _ => some f
  | .empty => none

namespace Api

/-- api.js syncPlaylists(forceRefresh = false, confirm = false):
posts to /sync/playlists the body with both flags. -/
def syncPlaylists (forceRefresh : Bool := false) (confirm : Bool := false) : Request :=
  { endpoint := "/sync/playlists", body := .syncFlags forceRefresh confirm }

/-- api.js syncTracks(forceRefresh = false, confirm = false). -/
def syncTracks (forceRefresh : Bool := false) (confirm : Bool := false) : Request :=
  { endpoint := "/sync/tracks", body := .syncFlags forceRefresh confirm }

/-- api.js syncAll(forceRefresh = false, confirm = false). -/
def syncAll (forceRefresh : Bool := false) (confirm : Bool := false) : Request :=
  { endpoint := "/sync/all", body := .syncFlags forceRefresh confirm }

/-- api.js syncToMaster(): posts to /spotify/sync-to-master with no body. -/
def syncToMaster : Request :=
  { endpoint := "/spotify/sync-to-master", body := .empty }

/-- api.js syncUnplaylisted(): posts to /spotify/sync-unplaylisted with no body. -/
def syncUnplaylisted : Request :=
  { endpoint := "/spotify/sync-unplaylisted", body := .empty }

/-- api.js clearDatabase(): posts to /db/clear with no body. -/
def clearDatabase : Request :=
  { endpoint := "/db/clear", body := .empty }

/-- api.js clearCache(): posts to /cache/clear with no body. -/
def clearCache : Request :=
  { endpoint := "/cache/clear", body := .empty }

end Api

/-- An entry of an analysis payload's to_add list, as read by the
SyncView.vue dialog template (key: playlist.id, shown: playlist.name). -/
structure AddedPlaylist where
  id : String
  name : String
deriving DecidableEq, Repr

/-- An entry of an analysis payload's to_update list, as read by the
SyncView.vue dialog template (shown: playlist.old_name and playlist.name). -/
structure UpdatedPlaylist where
  id : String
  old_name : String
  name : String
deriving DecidableEq, Repr

/-- The playlist analysis payload as consumed by the syncPlaylists handler:
added and updated counts for the dialog message, to_add and to_update lists
for the dialog details. -/
structure PlaylistAnalysis where
  added : Nat
  updated : Nat
  to_add : List AddedPlaylist
  to_update : List UpdatedPlaylist
deriving DecidableEq, Repr

/-- A track of a track analysis payload, with the fields the
syncMasterTracks handler reads: track.artists, track.title, track.album. -/
structure TrackInfo where
  artists : String
  title : String
  album : String
deriving DecidableEq, Repr

/-- The track analysis payload as consumed by the syncMasterTracks handler:
analysis.added is the list of tracks to add. -/
structure TrackAnalysis where
  added : List TrackInfo
deriving DecidableEq, Repr

/-- The combined analysis payload as consumed by the syncAll handler:
analysis.playlists and analysis.tracks. -/
structure AllAnalysis where
  playlists : PlaylistAnalysis
  tracks : TrackAnalysis
deriving DecidableEq, Repr

/-- The details object a handler passes to confirmDialog, displayed by the
dialog template. -/
inductive DialogDetails where
  | playlistDetails (a : PlaylistAnalysis) : DialogDetails
  | trackDetails (added_tracks : List String) : DialogDetails
  | combinedDetails (playlists : PlaylistAnalysis) (added_tracks : List String) : DialogDetails
  | noDetails : DialogDetails
deriving DecidableEq, Repr

/-- An observable event of a SyncView handler run, in program order: an API
request being issued, the confirmation dialog being shown with its details,
and the user's Confirm or Cancel click resolving it. -/
inductive Event where
  | apiCall (r : Request) : Event
  | dialogShown (details : DialogDetails) : Event
  | dialogConfirmed : Event
  | dialogCancelled : Event
deriving DecidableEq, Repr

/-- The API requests issued during a handler run, in order. -/
def callsOf (tr : List Event) : List Request :=
  tr.filterMap fun e =>
    match e with
    | .apiCall r => some r
    | _ => none

/-- Requests of a run whose body has confirm = true: the commit-phase
(write) calls of the two-call protocol. -/
def commitCalls (tr : List Event) : List Request :=
  (callsOf tr).filter fun r => r.bodyConfirm = some true

/-- Whether an event is a dialog interaction (shown, confirmed or
cancelled). -/
def isDialogEvent : Event → Bool
  | .dialogShown _ => true
  | .dialogConfirmed => true
  | .dialogCancelled => true
  | .apiCall _ => false

/-- Whether every issue of request r in the trace happens strictly after
some dialogConfirmed event: r is only ever sent once the user has clicked
Confirm. -/
def requestOnlyAfterConfirm (tr : List Event) (r : Request) : Bool :=
  (List.range tr.length).all fun j =>
    !(tr.get? j == some (Event.apiCall r)) ||
      (List.range j).any fun i => tr.get? i == some Event.dialogConfirmed

/-- The response of the first (analyze) call of /sync/playlists, as the
syncPlaylists handler consumes it: response.data.needs_confirmation and,
when confirmation is needed, response.data.analysis. -/
structure PlaylistSyncResponse where
  needs_confirmation : Bool
  analysis : PlaylistAnalysis
deriving DecidableEq, Repr

/-- The response of the first (analyze) call of /sync/tracks, as the
syncMasterTracks handler consumes it. -/
structure TrackSyncResponse where
  needs_confirmation : Bool
  analysis : TrackAnalysis
deriving DecidableEq, Repr

/-- The response of the first (analyze) call of /sync/all, as the syncAll
handler consumes it. -/
structure AllSyncResponse where
  needs_confirmation : Bool
  analysis : AllAnalysis
deriving DecidableEq, Repr

/-- Whether an optional playlist-sync response arrived and was marked
needs_confirmation (none models the analyze call throwing, in which case
the catch block runs and the handler issues nothing further). -/
def pNeedsConf : Option PlaylistSyncResponse → Bool
  | some r => r.needs_confirmation
  | none => false

/-- Whether an optional track-sync response arrived marked
needs_confirmation. -/
def tNeedsConf : Option TrackSyncResponse → Bool
  | some r => r.needs_confirmation
  | none => false

/-- Whether an optional all-sync response arrived marked
needs_confirmation. -/
def aNeedsConf : Option AllSyncResponse → Bool
  | some r => r.needs_confirmation
  | none => false

namespace SyncView

/-- The display string syncMasterTracks and syncAll build for each track of
analysis.added. -/
def formatAddedTrack (t : TrackInfo) : String :=
  t.artists ++ " - " ++ t.title ++ " (" ++ t.album ++ ")"

/-- The list-item title the dialog template renders for an entry of
details.to_add. -/
def renderAddedPlaylistItem (p : AddedPlaylist) : String :=
  p.name

/-- The list-item title the dialog template renders for an entry of
details.to_update: the old/new name pair. -/
def renderUpdatedPlaylistItem (p : UpdatedPlaylist) : String :=
  p.old_name ++ " → " ++ p.name

/-- The syncPlaylists handler of SyncView.vue: issues the analyze call with
confirm=false; if the response arrives marked needs_confirmation, shows the
confirmation dialog with the analysis as details; only when the user
confirms does it issue the same call again with confirm=true. -/
def syncPlaylists (forceRefresh : Bool) (resp : Option PlaylistSyncResponse)
    (userConfirms : Bool) : List Event :=
  Event.apiCall (Api.syncPlaylists forceRefresh false) ::
    match resp with
    | none => []
    | some r =>
      if r.needs_confirmation then
        Event.dialogShown (.playlistDetails r.analysis) ::
          if userConfirms then
            [Event.dialogConfirmed, Event.apiCall (Api.syncPlaylists forceRefresh true)]
          else
            [Event.dialogCancelled]
      else []

/-- The syncMasterTracks handler of SyncView.vue: analyze call to
/sync/tracks, dialog with the formatted added tracks as details, commit
call only on user confirmation. -/
def syncMasterTracks (forceRefresh : Bool) (resp : Option TrackSyncResponse)
    (userConfirms : Bool) : List Event :=
  Event.apiCall (Api.syncTracks forceRefresh false) ::
    match resp with
    | none => []
    | some r =>
      if r.needs_confirmation then
        Event.dialogShown (.trackDetails (r.analysis.added.map formatAddedTrack)) ::
          if userConfirms then
            [Event.dialogConfirmed, Event.apiCall (Api.syncTracks forceRefresh true)]
          else
            [Event.dialogCancelled]
      else []

/-- The syncAll handler of SyncView.vue: a single analyze call to
/sync/all, one dialog carrying the combined playlist and track analysis,
and on confirmation a single commit call to /sync/all. -/
def syncAll (forceRefresh : Bool) (resp : Option AllSyncResponse)
    (userConfirms : Bool) : List Event :=
  Event.apiCall (Api.syncAll forceRefresh false) ::
    match resp with
    | none => []
    | some r =>
      if r.needs_confirmation then
        Event.dialogShown
            (.combinedDetails r.analysis.playlists
              (r.analysis.tracks.added.map formatAddedTrack)) ::
          if userConfirms then
            [Event.dialogConfirmed, Event.apiCall (Api.syncAll forceRefresh true)]
          else
            [Event.dialogCancelled]
      else []

/-- The syncToMaster handler of SyncView.vue: issues the request
immediately, with no dialog. -/
def syncToMaster : List Event :=
  [Event.apiCall Api.syncToMaster]

/-- The syncUnplaylisted handler of SyncView.vue: issues the request
immediately, with no dialog. -/
def syncUnplaylisted : List Event :=
  [Event.apiCall Api.syncUnplaylisted]

/-- The confirmClearDatabase flow of SyncView.vue: shows the warning
dialog (with no details); the Confirm button runs clearDatabase, which
issues the /db/clear request; Cancel merely hides the dialog. -/
def confirmClearDatabase (userConfirms : Bool) : List Event :=
  Event.dialogShown .noDetails ::
    if userConfirms then
      [Event.dialogConfirmed, Event.apiCall Api.clearDatabase]
    else
      [Event.dialogCancelled]

/-- The clearCache handler of SyncView.vue: issues the request
immediately, with no dialog. -/
def clearCache : List Event :=
  [Event.apiCall Api.clearCache]

end SyncView

/-- A JavaScript number: finite values as rationals, plus NaN and the two
infinities.  NaN/Infinity propagation is modelled exactly, and finite
arithmetic overflows to an infinity at the IEEE double overflow threshold
(see satFinite); signed zero and the rounding of non-overflowing finite
results to the nearest double are not modelled. -/
inductive JSNum where
  | finite (q : ℚ) : JSNum
  | nan : JSNum
  | posInf : JSNum
  | negInf : JSNum
deriving DecidableEq, Repr

/-- A JavaScript value of the kinds calculatePercentage can receive:
a number, null, or undefined. -/
inductive JSValue where
  | num (n : JSNum) : JSValue
  | null : JSValue
  | undefined : JSValue
deriving DecidableEq, Repr

/-- JavaScript truthiness of such a value: 0, NaN, null and undefined are
falsy; every other number (infinities included) is truthy. -/
def JSValue.truthy : JSValue → Bool
  | .num (.finite q) => decide (q ≠ 0)
  | .num .nan => false
  | .num .posInf => true
  | .num .negInf => true
  | .null => false
  | .undefined => false

/-- JavaScript ToNumber coercion on these values: null coerces to 0,
undefined to NaN. -/
def JSValue.toNumber : JSValue → JSNum
  | .num n => n
  | .null => .finite 0
  | .undefined => .nan

/-- The IEEE double overflow threshold: under round-to-nearest, an exact
result of magnitude at least 2^1024 - 2^970 (the midpoint between the
largest finite double, 2^1024 - 2^971, and 2^1024) rounds to an
infinity. -/
def overflowThreshold : ℚ := 2 ^ 1024 - 2 ^ 970

/-- An exact finite result of a double operation: magnitudes at or beyond
the overflow threshold saturate to the corresponding infinity, as IEEE
double arithmetic does; smaller results are kept as exact rationals
(their rounding to the nearest double is not modelled). -/
def satFinite (q : ℚ) : JSNum :=
  if q ≥ overflowThreshold then .posInf
  else if q ≤ -overflowThreshold then .negInf
  else .finite q

/-- JavaScript division on numbers: NaN propagates; finite/0 gives a
signed infinity (0/0 gives NaN); a finite quotient overflows to an
infinity at the IEEE threshold (see satFinite); a finite value over an
infinity gives 0; an infinity over a finite value keeps the sign rule;
infinity/infinity gives NaN. -/
def jsDiv : JSNum → JSNum → JSNum
  | .nan, _ => .nan
  | _, .nan => .nan
  | .finite a, .finite b =>
      if b = 0 then
        if a = 0 then .nan else if a > 0 then .posInf else .negInf
      else satFinite (a / b)
  | .finite _, .posInf => .finite 0
  | .finite _, .negInf => .finite 0
  | .posInf, .finite b => if b ≥ 0 then .posInf else .negInf
  | .negInf, .finite b => if b ≥ 0 then .negInf else .posInf
  | .posInf, .posInf => .nan
  | .posInf, .negInf => .nan
  | .negInf, .posInf => .nan
  | .negInf, .negInf => .nan

/-- JavaScript multiplication on numbers: NaN propagates; a finite product
overflows to an infinity at the IEEE threshold (see satFinite); an
infinity times 0 gives NaN, times a nonzero finite value an infinity by
the sign rule; infinity times infinity follows signs. -/
def jsMul : JSNum → JSNum → JSNum
  | .nan, _ => .nan
  | _, .nan => .nan
  | .finite a, .finite b => satFinite (a * b)
  | .finite a, .posInf => if a = 0 then .nan else if a > 0 then .posInf else .negInf
  | .finite a, .negInf => if a = 0 then .nan else if a > 0 then .negInf else .posInf
  | .posInf, .finite b => if b = 0 then .nan else if b > 0 then .posInf else .negInf
  | .negInf, .finite b => if b = 0 then .nan else if b > 0 then .negInf else .posInf
  | .posInf, .posInf => .posInf
  | .posInf, .negInf => .negInf
  | .negInf, .posInf => .negInf
  | .negInf, .negInf => .posInf

/-- JavaScript Math.round: NaN and the infinities pass through; a finite
value rounds half toward positive infinity, i.e. to the floor of x + 1/2. -/
def jsRound : JSNum → JSNum
  | .nan => .nan
  | .posInf => .posInf
  | .negInf => .negInf
  | .finite q => .finite (⌊q + 1 / 2⌋ : ℤ)

/-- Whether a value is the number NaN or an infinity. -/
def JSValue.isNaNOrInfinite : JSValue → Bool
  | .num .nan => true
  | .num .posInf => true
  | .num .negInf => true
  | _ => false

/-- calculatePercentage of ValidationView.vue:
if (!total) return 0; return Math.round((part / total) * 100). -/
def calculatePercentage (part total : JSValue) : JSValue :=
  if total.truthy = false then .num (.finite 0)
  else .num (jsRound (jsMul (jsDiv part.toNumber total.toNumber) (.finite 100)))

/-- The needle string occurs verbatim inside the hay string. -/
def strContains (needle hay : String) : Prop :=
  ∃ pre post : String, hay = pre ++ needle ++ post

/-- Whether an event is the dialog being shown. -/
def isDialogShownEvent : Event → Bool
  | .dialogShown _ => true
  | _ => false

/-- Helper: the requests a syncPlaylists handler run issues are exactly
the analyze call followed by the commit call when and only when the
response arrived marked needs_confirmation and the user confirmed. -/
lemma syncPlaylists_callsOf (fr uc : Bool) (rp : Option PlaylistSyncResponse) :
    callsOf (SyncView.syncPlaylists fr rp uc) =
      Api.syncPlaylists fr false ::
        (if pNeedsConf rp && uc then [Api.syncPlaylists fr true] else []) := by
  cases rp with
  | none => simp [SyncView.syncPlaylists, callsOf, pNeedsConf]
  | some r =>
    obtain ⟨nc, a⟩ := r
    cases nc <;> cases uc <;>
      simp [SyncView.syncPlaylists, callsOf, pNeedsConf]

/-- Helper: the calls of a syncMasterTracks handler run. -/
lemma syncMasterTracks_callsOf (fr uc : Bool) (rt : Option TrackSyncResponse) :
    callsOf (SyncView.syncMasterTracks fr rt uc) =
      Api.syncTracks fr false ::
        (if tNeedsConf rt && uc then [Api.syncTracks fr true] else []) := by
  cases rt with
  | none => simp [SyncView.syncMasterTracks, callsOf, tNeedsConf]
  | some r =>
    obtain ⟨nc, a⟩ := r
    cases nc <;> cases uc <;>
      simp [SyncView.syncMasterTracks, callsOf, tNeedsConf]

/-- Helper: the calls of a syncAll handler run. -/
lemma syncAll_callsOf (fr uc : Bool) (ra : Option AllSyncResponse) :
    callsOf (SyncView.syncAll fr ra uc) =
      Api.syncAll fr false ::
        (if aNeedsConf ra && uc then [Api.syncAll fr true] else []) := by
  cases ra with
  | none => simp [SyncView.syncAll, callsOf, aNeedsConf]
  | some r =>
    obtain ⟨nc, a⟩ := r
    cases nc <;> cases uc <;>
      simp [SyncView.syncAll, callsOf, aNeedsConf]

/-- C1: for each sync operation (sync-playlists, sync-tracks, sync-all),
one handler invocation first issues the analyze call with confirm=false,
and the only other call it can issue is the commit call with confirm=true,
placed strictly after, and only when the analyze response arrived marked
needs_confirmation and the user confirmed: the calls of a run are exactly
the analyze call followed, in that case alone, by the commit call. -/
theorem c1_analyze_strictly_precedes_commit
    (fr uc : Bool) (rp : Option PlaylistSyncResponse)
    (rt : Option TrackSyncResponse) (ra : Option AllSyncResponse) :
    callsOf (SyncView.syncPlaylists fr rp uc) =
      Api.syncPlaylists fr false ::
        (if pNeedsConf rp && uc then [Api.syncPlaylists fr true] else []) ∧
    callsOf (SyncView.syncMasterTracks fr rt uc) =
      Api.syncTracks fr false ::
        (if tNeedsConf rt && uc then [Api.syncTracks fr true] else []) ∧
    callsOf (SyncView.syncAll fr ra uc) =
      Api.syncAll fr false ::
        (if aNeedsConf ra && uc then [Api.syncAll fr true] else []) :=
  ⟨syncPlaylists_callsOf fr uc rp, syncMasterTracks_callsOf fr uc rt,
    syncAll_callsOf fr uc ra⟩

/-- C3: when the user declines the confirmation (userConfirms = false), a
sync handler issues no request beyond the analyze call, and no request of
the whole run carries confirm=true: zero write calls occur. -/
theorem c3_decline_is_noop
    (fr : Bool) (rp : Option PlaylistSyncResponse)
    (rt : Option TrackSyncResponse) (ra : Option AllSyncResponse) :
    callsOf (SyncView.syncPlaylists fr rp false) = [Api.syncPlaylists fr false] ∧
    commitCalls (SyncView.syncPlaylists fr rp false) = [] ∧
    callsOf (SyncView.syncMasterTracks fr rt false) = [Api.syncTracks fr false] ∧
    commitCalls (SyncView.syncMasterTracks fr rt false) = [] ∧
    callsOf (SyncView.syncAll fr ra false) = [Api.syncAll fr false] ∧
    commitCalls (SyncView.syncAll fr ra false) = [] := by
  have h1 := syncPlaylists_callsOf fr false rp
  have h2 := syncMasterTracks_callsOf fr false rt
  have h3 := syncAll_callsOf fr false ra
  refine ⟨?_, ?_, ?_, ?_, ?_, ?_⟩ <;>
    simp [commitCalls, h1, h2, h3, Api.syncPlaylists, Api.syncTracks,
      Api.syncAll, Request.bodyConfirm]

/-- C2 counterexample: the syncToMaster and syncUnplaylisted handlers do
issue their remote-mutating request, yet no issue of it is preceded by a
user confirmation — the claimed confirm-before-request property is false
on these handlers. -/
theorem c2_counterexample :
    Event.apiCall Api.syncToMaster ∈ SyncView.syncToMaster ∧
    Event.apiCall Api.syncUnplaylisted ∈ SyncView.syncUnplaylisted ∧
    requestOnlyAfterConfirm SyncView.syncToMaster Api.syncToMaster = false ∧
    requestOnlyAfterConfirm SyncView.syncUnplaylisted Api.syncUnplaylisted = false := by
  decide

/-- C2 amended: the syncToMaster and syncUnplaylisted handlers issue their
request immediately and unconditionally — the run contains no dialog
interaction at all, and the request carries no confirm field. -/
theorem c2_push_operations_unconfirmed :
    callsOf SyncView.syncToMaster = [Api.syncToMaster] ∧
    callsOf SyncView.syncUnplaylisted = [Api.syncUnplaylisted] ∧
    SyncView.syncToMaster.filter isDialogEvent = [] ∧
    SyncView.syncUnplaylisted.filter isDialogEvent = [] ∧
    Api.syncToMaster.bodyConfirm = none ∧
    Api.syncUnplaylisted.bodyConfirm = none := by
  decide

/-- C4: a syncAll run presents at most one dialog (exactly one when the
combined analysis needs confirmation), one Confirm click at most, and a
single combined commit request; every request of the run targets the
/sync/all endpoint, so no sub-operation (playlists or tracks) is ever
committed through a separate confirmation. -/
theorem c4_syncAll_single_combined_commit
    (fr uc : Bool) (ra : Option AllSyncResponse) :
    ((SyncView.syncAll fr ra uc).filter isDialogShownEvent).length =
      (if aNeedsConf ra then 1 else 0) ∧
    ((SyncView.syncAll fr ra uc).filter (· == Event.dialogConfirmed)).length =
      (if aNeedsConf ra && uc then 1 else 0) ∧
    commitCalls (SyncView.syncAll fr ra uc) =
      (if aNeedsConf ra && uc then [Api.syncAll fr true] else []) ∧
    (callsOf (SyncView.syncAll fr ra uc)).all
      (fun r => r.endpoint == "/sync/all") = true := by
  refine ⟨?_, ?_, ?_, ?_⟩
  · cases ra with
    | none => simp [SyncView.syncAll, aNeedsConf, isDialogShownEvent]
    | some r =>
      obtain ⟨nc, a⟩ := r
      cases nc <;> cases uc <;>
        simp [SyncView.syncAll, aNeedsConf, isDialogShownEvent]
  · cases ra with
    | none => simp [SyncView.syncAll, aNeedsConf]
    | some r =>
      obtain ⟨nc, a⟩ := r
      cases nc <;> cases uc <;>
        simp [SyncView.syncAll, aNeedsConf]
  · rw [commitCalls, syncAll_callsOf fr uc ra]
    cases h : aNeedsConf ra && uc <;>
      simp [Api.syncAll, Request.bodyConfirm]
  · rw [syncAll_callsOf fr uc ra]
    cases h : aNeedsConf ra && uc <;>
      simp [Api.syncAll]

/-- C5: the commit-phase request of each sync operation is built from the
same inputs as the analyze request — the identical force_refresh value with
confirm=true, its body holding nothing but those two flags — and the
requests a run issues do not depend on the analysis payload the server
returned, so the server can recompute the diff from the request alone. -/
theorem c5_commit_request_self_sufficient
    (fr uc nc : Bool) (ap ap' : PlaylistAnalysis) (ta ta' : TrackAnalysis)
    (aa aa' : AllAnalysis) :
    callsOf (SyncView.syncPlaylists fr (some ⟨true, ap⟩) true) =
      [{ endpoint := "/sync/playlists", body := .syncFlags fr false },
       { endpoint := "/sync/playlists", body := .syncFlags fr true }] ∧
    callsOf (SyncView.syncMasterTracks fr (some ⟨true, ta⟩) true) =
      [{ endpoint := "/sync/tracks", body := .syncFlags fr false },
       { endpoint := "/sync/tracks", body := .syncFlags fr true }] ∧
    callsOf (SyncView.syncAll fr (some ⟨true, aa⟩) true) =
      [{ endpoint := "/sync/all", body := .syncFlags fr false },
       { endpoint := "/sync/all", body := .syncFlags fr true }] ∧
    callsOf (SyncView.syncPlaylists fr (some ⟨nc, ap⟩) uc) =
      callsOf (SyncView.syncPlaylists fr (some ⟨nc, ap'⟩) uc) ∧
    callsOf (SyncView.syncMasterTracks fr (some ⟨nc, ta⟩) uc) =
      callsOf (SyncView.syncMasterTracks fr (some ⟨nc, ta'⟩) uc) ∧
    callsOf (SyncView.syncAll fr (some ⟨nc, aa⟩) uc) =
      callsOf (SyncView.syncAll fr (some ⟨nc, aa'⟩) uc) := by
  refine ⟨?_, ?_, ?_, ?_, ?_, ?_⟩
  · simp [syncPlaylists_callsOf, pNeedsConf, Api.syncPlaylists]
  · simp [syncMasterTracks_callsOf, tNeedsConf, Api.syncTracks]
  · simp [syncAll_callsOf, aNeedsConf, Api.syncAll]
  · simp [syncPlaylists_callsOf, pNeedsConf]
  · simp [syncMasterTracks_callsOf, tNeedsConf]
  · simp [syncAll_callsOf, aNeedsConf]

/-- C6: the display string built for each added track contains the track's
title, artists and album; the dialog line rendered for an updated playlist
contains both the old and the new name (the old/new pair); the line for an
added playlist carries its name; and the dialog a syncMasterTracks run
shows carries exactly the formatted added tracks of the analysis as its
details. -/
theorem c6_analysis_entries_identifying
    (t : TrackInfo) (p : UpdatedPlaylist) (q : AddedPlaylist)
    (fr uc : Bool) (ta : TrackAnalysis) :
    strContains t.title (SyncView.formatAddedTrack t) ∧
    strContains t.artists (SyncView.formatAddedTrack t) ∧
    strContains t.album (SyncView.formatAddedTrack t) ∧
    strContains p.old_name (SyncView.renderUpdatedPlaylistItem p) ∧
    strContains p.name (SyncView.renderUpdatedPlaylistItem p) ∧
    strContains q.name (SyncView.renderAddedPlaylistItem q) ∧
    (SyncView.syncMasterTracks fr (some ⟨true, ta⟩) uc).get? 1 =
      some (Event.dialogShown
        (.trackDetails (ta.added.map SyncView.formatAddedTrack))) := by
  refine ⟨⟨t.artists ++ " - ", " (" ++ t.album ++ ")", ?_⟩,
    ⟨"", " - " ++ t.title ++ " (" ++ t.album ++ ")", ?_⟩,
    ⟨t.artists ++ " - " ++ t.title ++ " (", ")", ?_⟩,
    ⟨"", " → " ++ p.name, ?_⟩,
    ⟨p.old_name ++ " → ", "", ?_⟩,
    ⟨"", "", ?_⟩, ?_⟩ <;>
    simp [SyncView.formatAddedTrack, SyncView.renderUpdatedPlaylistItem,
      SyncView.renderAddedPlaylistItem, SyncView.syncMasterTracks,
      String.append_assoc]

/-- C7: the clear-database flow always shows the warning dialog first; the
/db/clear request is issued only after the user's Confirm click, exactly
once on confirmation, and not at all when the user cancels. -/
theorem c7_clear_database_confirm_gated (uc : Bool) :
    requestOnlyAfterConfirm (SyncView.confirmClearDatabase uc) Api.clearDatabase = true ∧
    callsOf (SyncView.confirmClearDatabase false) = [] ∧
    callsOf (SyncView.confirmClearDatabase true) = [Api.clearDatabase] ∧
    (SyncView.confirmClearDatabase uc).head? =
      some (Event.dialogShown .noDetails) := by
  cases uc <;> decide

/-- C8: the clear-cache handler issues its request immediately: the run
contains no dialog interaction, and the request posts no body at all, in
particular no confirm flag — the operation is not gated by the confirm
protocol. -/
theorem c8_clear_cache_unconditional :
    callsOf SyncView.clearCache = [Api.clearCache] ∧
    SyncView.clearCache.filter isDialogEvent = [] ∧
    Api.clearCache.bodyConfirm = none ∧
    Api.clearCache.body = Body.empty := by
  decide

/-- C9: calling the api.js sync functions with both arguments omitted
posts force_refresh=false and confirm=false, and the confirm field of the
posted body always equals the confirm argument, so only an explicit
confirm=true argument can produce a commit-phase request. -/
theorem c9_api_defaults_never_commit (fr c : Bool) :
    Api.syncPlaylists =
      { endpoint := "/sync/playlists", body := .syncFlags false false } ∧
    Api.syncTracks =
      { endpoint := "/sync/tracks", body := .syncFlags false false } ∧
    Api.syncAll =
      { endpoint := "/sync/all", body := .syncFlags false false } ∧
    (Api.syncPlaylists fr c).bodyConfirm = some c ∧
    (Api.syncTracks fr c).bodyConfirm = some c ∧
    (Api.syncAll fr c).bodyConfirm = some c ∧
    (Api.syncPlaylists fr c).bodyForceRefresh = some fr ∧
    (Api.syncTracks fr c).bodyForceRefresh = some fr ∧
    (Api.syncAll fr c).bodyForceRefresh = some fr :=
  ⟨rfl, rfl, rfl, rfl, rfl, rfl, rfl, rfl, rfl⟩

/-- C10 counterexample: NaN is a numeric input, the guard lets it through
(NaN part with a truthy total), and the function returns NaN — refuting
the claim that it never returns NaN or Infinity for numeric inputs. -/
theorem c10_counterexample :
    calculatePercentage (JSValue.num JSNum.nan) (JSValue.num (JSNum.finite 1)) =
      JSValue.num JSNum.nan ∧
    (calculatePercentage (JSValue.num JSNum.nan)
      (JSValue.num (JSNum.finite 1))).isNaNOrInfinite = true := by
  decide

/-- C10 amended: calculatePercentage returns 0 whenever total is zero,
null or undefined (the guard catches every falsy total), and for any
truthy total it returns Math.round((part / total) * 100) under JavaScript
number arithmetic, in which the divisor is never the number zero — so a
division by zero is never evaluated; the result, however, can be NaN or
an infinity for numeric inputs, since a NaN or infinite part passes the
guard and propagates (see the counterexample). -/
theorem c10_percentage_guarded (p t : JSValue) (ht : t.truthy = true) :
    calculatePercentage p (JSValue.num (JSNum.finite 0)) =
      JSValue.num (JSNum.finite 0) ∧
    calculatePercentage p JSValue.null = JSValue.num (JSNum.finite 0) ∧
    calculatePercentage p JSValue.undefined = JSValue.num (JSNum.finite 0) ∧
    calculatePercentage p t =
      JSValue.num (jsRound (jsMul (jsDiv p.toNumber t.toNumber)
        (JSNum.finite 100))) ∧
    t.toNumber ≠ JSNum.finite 0 := by
  refine ⟨?_, ?_, ?_, ?_, ?_⟩
  · simp [calculatePercentage, JSValue.truthy]
  · simp [calculatePercentage, JSValue.truthy]
  · simp [calculatePercentage, JSValue.truthy]
  · simp [calculatePercentage, ht]
  · cases t with
    | num n =>
      cases n with
      | finite q =>
        have hq : q ≠ 0 := by simpa [JSValue.truthy] using ht
        simp [JSValue.toNumber, hq]
      | nan => simp [JSValue.truthy] at ht
      | posInf => simp [JSValue.toNumber]
      | negInf => simp [JSValue.toNumber]
    | null => simp [JSValue.truthy] at ht
    | undefined => simp [JSValue.truthy] at ht

/-- Witness for C10 amended: at part = 1 and total = 2 the total is
truthy, so the theorem applies, and evaluating the arithmetic gives 50. -/
theorem c10_percentage_guarded_witness :
    (JSValue.num (JSNum.finite 2)).truthy = true ∧
    calculatePercentage (JSValue.num (JSNum.finite 1))
        (JSValue.num (JSNum.finite 2)) =
      JSValue.num (JSNum.finite 50) := by
  refine ⟨by decide, ?_⟩
  have h := (c10_percentage_guarded (JSValue.num (JSNum.finite 1))
    (JSValue.num (JSNum.finite 2)) (by decide)).2.2.2.1
  rw [h]
  norm_num [jsRound, jsMul, jsDiv, satFinite, overflowThreshold,
    JSValue.toNumber]
